import Mathlib

/-!
# Verification of the business-radar-core verdict-generation engine

Shallow embedding of the five domain analyzers
(`business_radar_core/modules/{debt,market,hiring,import_mod,idea}.py`),
the AI adapter's zone extraction and fallback (`business_radar_core/utils/llm.py`),
and the text normalizer (spec §4.1; `utils/slang.py` is not present in the
source tree, so it is modelled from the specification).

Answer sets (`Dict[str, str]` in the source) are modelled as association
lists; `dict.get(key, default)` is `pyGet`.  Python's `float(...)` / `int(...)`
builtins are modelled by `pyFloat` / `pyInt` over the grammar the analyzers
actually feed them (optional sign, digits, optional fractional part; the
exotic float forms `inf` / `nan` / exponents are outside the inputs the
checks construct and are omitted); a parse failure (Python `ValueError`)
is `none`.  Substring membership (`"x" in s`) is `hasSub`; `str.lower()`
is `pyLower`, covering ASCII and the Cyrillic/Kazakh letters used by the
analyzers' patterns.
-/

namespace BusinessRadar

/-- An answer set: Python `Dict[str, str]` as an association list
(first binding for a key wins, as dict keys are unique). -/
abbrev AnswerSet := List (String × String)

/-- Python `data.get(key, default)`. -/
def pyGet (data : AnswerSet) (key dflt : String) : String :=
  match data.lookup key with
  | some v => v
  | none => dflt

/-- Lowercasing of a single character: ASCII `A`-`Z`, Cyrillic `А`-`Я`
(U+0410–U+042F), `Ё`, and the Kazakh letters `Ә Ғ Қ Ң Ө Ұ Ү Һ І`
(uppercase at U+04xx, lowercase one code point higher). -/
def lowerChar (c : Char) : Char :=
  let v := c.toNat
  if 65 ≤ v ∧ v ≤ 90 then Char.ofNat (v + 32)
  else if 0x410 ≤ v ∧ v ≤ 0x42F then Char.ofNat (v + 32)
  else if v = 0x401 then Char.ofNat 0x451
  else if v ∈ [0x4D8, 0x492, 0x49A, 0x4A2, 0x4E8, 0x4B0, 0x4AE, 0x4BA, 0x406] then
    Char.ofNat (v + 1)
  else c

/-- Python `str.lower()` restricted to the character ranges above. -/
def pyLower (s : String) : String := String.mk (s.data.map lowerChar)

/-- Does `p` occur as a contiguous sublist of `l`?  (Python `p in l`.) -/
def hasSubList (p : List Char) : List Char → Bool
  | [] => p.isEmpty
  | c :: t => p.isPrefixOf (c :: t) || hasSubList p t

/-- Python substring membership `pat in hay`. -/
def hasSub (hay pat : String) : Bool := hasSubList pat.data hay.data

/-- `"…".replace(" ", "").replace(",", "")`: drop every space and comma. -/
def stripSep (s : String) : String :=
  String.mk (s.data.filter (fun c => !(c == ' ' || c == ',')))

/-- Numeric value of a digit run, most significant first. -/
def digitsToNat (l : List Char) : Nat :=
  l.foldl (fun a c => 10 * a + (c.toNat - 48)) 0

/-- Split an optional leading sign from a character list.
Returns `(negative?, rest)`. -/
def splitSign : List Char → Bool × List Char
  | '-' :: r => (true, r)
  | '+' :: r => (false, r)
  | r => (false, r)

/-- Python `float(s)` on the inputs the analyzers build (sign, digits,
optional `.` and fraction digits); `none` models `ValueError`. -/
def pyFloat (s : String) : Option ℚ :=
  let (neg, r) := splitSign s.data
  let ip := r.takeWhile Char.isDigit
  let rest := r.drop ip.length
  match rest with
  | [] =>
    if ip = [] then none
    else
      let v : ℚ := (digitsToNat ip : ℚ)
      some (if neg then -v else v)
  | '.' :: fr =>
    let fp := fr.takeWhile Char.isDigit
    if fr.drop fp.length ≠ [] then none
    else if ip = [] ∧ fp = [] then none
    else
      let v : ℚ := (digitsToNat ip : ℚ) + (digitsToNat fp : ℚ) / (10 ^ fp.length : ℚ)
      some (if neg then -v else v)
  | _ => none

/-- Python `int(s)` (sign and a nonempty digit run, nothing else);
`none` models `ValueError`. -/
def pyInt (s : String) : Option Int :=
  let (neg, r) := splitSign s.data
  let ds := r.takeWhile Char.isDigit
  if ds = [] ∨ r.drop ds.length ≠ [] then none
  else some (if neg then -(digitsToNat ds : Int) else (digitsToNat ds : Int))

/-- The shared result shape of the rule-based analyzers: the source returns
a dict with the verdict text, the zone, the accumulated signal list  (key
`risk_factors` for debt/hiring/import, `issues` for market, `weak_points`
for idea) and the recommendation. -/
structure Verdict where
  verdictText : String
  zone : String
  signals : List String
  recommendation : String
deriving Repr, DecidableEq

/-! ## Debt analyzer (`modules/debt.py`, `DebtVerdictGenerator`) -/

namespace DebtVerdictGenerator

/-- `_analyze_amount`: parse after stripping spaces/commas; `< 100000` flags
small, `> 5000000` flags large; `ValueError` contributes nothing. -/
def analyze_amount (amount : String) : List String :=
  match pyFloat (stripSep amount) with
  | some x =>
    if x < 100000 then ["Сумма небольшая — стоит ли тратить время?"]
    else if x > 5000000 then ["Крупная сумма — рекомендую юриста."]
    else []
  | none => []

/-- `_analyze_date`. -/
def analyze_date (date : String) : List String :=
  let d := pyLower date
  if hasSub d "год" || hasSub d "лет" then ["Долг старый — высокий риск невозврата."]
  else if hasSub d "месяц" then ["Срок средний — ещё можно вернуть."]
  else []

/-- `_analyze_debtor_type` (exact comparison, no lowercasing in source). -/
def analyze_debtor_type (t : String) : List String :=
  if t = "Неизвестно" ∨ t = "Белгісіз" then ["Должник исчез — это плохой знак."]
  else if t = "Частное лицо" ∨ t = "Жеке тұлға" then ["С физлиц взыскать сложнее, чем с юрлиц."]
  else []

/-- `_analyze_evidence`. -/
def analyze_evidence (e : String) : List String :=
  let el := pyLower e
  if hasSub el "нет" || hasSub el "жоқ" || hasSub el "не знаю" then
    ["Нет доказательств — позиция слабая."]
  else []

/-- `_analyze_contact`. -/
def analyze_contact (c : String) : List String :=
  let cl := pyLower c
  if hasSub cl "нет" || hasSub cl "не выходит" || hasSub cl "жоқ" then
    ["Не выходит на связь — готовьтесь к суду."]
  else []

/-- `_analyze_all`: the five checks in source order, with the source's
defaults (`amount` defaults to `"0"`, the rest to `""`). -/
def risk_factors (data : AnswerSet) : List String :=
  analyze_amount (pyGet data "amount" "0") ++
  analyze_date (pyGet data "date" "") ++
  analyze_debtor_type (pyGet data "debtor_type" "") ++
  analyze_evidence (pyGet data "evidence" "") ++
  analyze_contact (pyGet data "contact_status" "")

/-- `_generate_verdict`, zone component (`>= 3` red, `>= 1` yellow, else green). -/
def verdict_zone (n : Nat) : String :=
  if n ≥ 3 then "red" else if n ≥ 1 then "yellow" else "green"

/-- `_generate_verdict`, text component. -/
def verdict_text (n : Nat) : String :=
  if n ≥ 3 then "🔴 Красная зона\n\nШансы на возврат низкие."
  else if n ≥ 1 then "🟡 Жёлтая зона\n\nШансы 50/50."
  else "🟢 Зелёная зона\n\nХорошие шансы на возврат."

/-- `_get_recommendation` (`recommendations.get(zone, "")`). -/
def get_recommendation (zone : String) : String :=
  if zone = "red" then "Рекомендую обратиться к юристу. Шансы низкие, но попробовать стоит."
  else if zone = "yellow" then "Можно попробовать вернуть самостоятельно. Начните с официальной претензии."
  else if zone = "green" then "Высокие шансы на возврат. Начните с переговоров, затем претензия."
  else ""

/-- The rule-based part of `analyze` applied to the five extracted fields. -/
def analyzeFields (amount date dtype ev ct : String) : Verdict :=
  let rf := analyze_amount amount ++ analyze_date date ++ analyze_debtor_type dtype ++
    analyze_evidence ev ++ analyze_contact ct
  { verdictText := verdict_text rf.length
    zone := verdict_zone rf.length
    signals := rf
    recommendation := get_recommendation (verdict_zone rf.length) }

/-- `DebtVerdictGenerator.analyze`, rule-based path (the source dict also
carries `ai_generated: False`, modelled on the adapter side). -/
def analyze (data : AnswerSet) : Verdict :=
  analyzeFields (pyGet data "amount" "0") (pyGet data "date" "")
    (pyGet data "debtor_type" "") (pyGet data "evidence" "") (pyGet data "contact_status" "")

end DebtVerdictGenerator

/-! ## Market analyzer (`modules/market.py`, `MarketVerdictGenerator`) -/

namespace MarketVerdictGenerator

/-- `_analyze_sales` (`int(...)` after stripping spaces/commas; zero flags). -/
def analyze_sales (sales : String) : List String :=
  match pyInt (stripSep sales) with
  | some x =>
    if x = 0 then ["❌ Продаж нет — проблема может быть в цене или канале"] else []
  | none => []

/-- `_analyze_competitors`. -/
def analyze_competitors (competitors : String) : List String :=
  let cl := pyLower competitors
  if hasSub cl "не знаю" || hasSub cl "білмеймін" then
    ["❌ Конкурентов не изучил — не можешь позиционироваться"]
  else []

/-- `_analyze_price`: placeholder in the source (`pass`), contributes nothing. -/
def analyze_price (_price : String) : List String := []

/-- The three checks in source order with the source's defaults
(`sales_volume` and `price` default to `"0"`, `competitors` to `""`). -/
def issues (data : AnswerSet) : List String :=
  analyze_sales (pyGet data "sales_volume" "0") ++
  analyze_competitors (pyGet data "competitors" "") ++
  analyze_price (pyGet data "price" "0")

/-- `_generate_verdict`, zone component (`>= 2` red, `>= 1` yellow, else green). -/
def verdict_zone (n : Nat) : String :=
  if n ≥ 2 then "red" else if n ≥ 1 then "yellow" else "green"

/-- `_generate_verdict`, text component. -/
def verdict_text (n : Nat) : String :=
  if n ≥ 2 then "🔴 Красная зона\n\nПозиция опасная."
  else if n ≥ 1 then "🟡 Жёлтая зона\n\nЕсть риски."
  else "🟢 Зелёная зона\n\nПозиция на рынке нормальная."

/-- `_get_recommendation`. -/
def get_recommendation (zone : String) : String :=
  if zone = "red" then "Срочно изучите конкурентов и пересмотрите цену. Продаж нет не просто так."
  else if zone = "yellow" then "Изучите конкурентов и сравните цены. Возможно, вы не в рынке."
  else if zone = "green" then "Позиция нормальная. Продолжайте мониторить рынок и конкурентов."
  else ""

/-- `analyze` applied to the three extracted fields. -/
def analyzeFields (sales competitors price : String) : Verdict :=
  let is := analyze_sales sales ++ analyze_competitors competitors ++ analyze_price price
  { verdictText := verdict_text is.length
    zone := verdict_zone is.length
    signals := is
    recommendation := get_recommendation (verdict_zone is.length) }

/-- `MarketVerdictGenerator.analyze`. -/
def analyze (data : AnswerSet) : Verdict :=
  analyzeFields (pyGet data "sales_volume" "0") (pyGet data "competitors" "")
    (pyGet data "price" "0")

end MarketVerdictGenerator

/-! ## Hiring analyzer (`modules/hiring.py`, `HiringVerdictGenerator`) -/

/-- The hiring result shape: the source dict carries `risk_level`
(vocabulary low/medium/high) instead of `zone`. -/
structure HiringVerdict where
  verdictText : String
  riskLevel : String
  signals : List String
  recommendation : String
deriving Repr, DecidableEq

namespace HiringVerdictGenerator

/-- `_analyze_experience` (substring checks on the lowercased text, plus an
exact `== "0"` comparison on the raw text). -/
def analyze_experience (experience : String) : List String :=
  let el := pyLower experience
  if hasSub el "без" || hasSub el "тәжірибесіз" || experience = "0" then
    ["❌ Нет опыта — высокий риск ошибок"]
  else []

/-- `_analyze_references`. -/
def analyze_references (references : String) : List String :=
  let rl := pyLower references
  if hasSub rl "нет" || hasSub rl "жоқ" then ["❌ Нет рекомендаций — красный флаг"] else []

/-- `_analyze_probation`. -/
def analyze_probation (probation : String) : List String :=
  let pl := pyLower probation
  if hasSub pl "нет" || hasSub pl "жоқ" then
    ["⚠️ Нет испытательного срока — риск ошибки при найме"]
  else []

/-- `_analyze_salary`: placeholder in the source (`pass`). -/
def analyze_salary (_salary : String) : List String := []

/-- The four checks in source order; every key defaults to `""`. -/
def risk_factors (data : AnswerSet) : List String :=
  analyze_experience (pyGet data "experience" "") ++
  analyze_references (pyGet data "references" "") ++
  analyze_probation (pyGet data "probation" "") ++
  analyze_salary (pyGet data "salary" "")

/-- `_generate_verdict`, level component (`>= 3` high, `>= 1` medium, else low). -/
def verdict_level (n : Nat) : String :=
  if n ≥ 3 then "high" else if n ≥ 1 then "medium" else "low"

/-- `_generate_verdict`, text component. -/
def verdict_text (n : Nat) : String :=
  if n ≥ 3 then "🔴 Высокий риск\n\nКандидат опасен."
  else if n ≥ 1 then "🟡 Средний риск\n\nЕсть риски."
  else "🟢 Низкий риск\n\nКандидат выглядит надёжно."

/-- `_get_recommendation`. -/
def get_recommendation (level : String) : String :=
  if level = "high" then "Рекомендую отказаться. Слишком много красных флагов."
  else if level = "medium" then "Можно рассмотреть, но с осторожностью. Введите испытательный срок."
  else if level = "low" then "Кандидат выглядит надёжно. Можно предлагать оффер."
  else ""

/-- `analyze` applied to the four extracted fields. -/
def analyzeFields (experience references probation salary : String) : HiringVerdict :=
  let rf := analyze_experience experience ++ analyze_references references ++
    analyze_probation probation ++ analyze_salary salary
  { verdictText := verdict_text rf.length
    riskLevel := verdict_level rf.length
    signals := rf
    recommendation := get_recommendation (verdict_level rf.length) }

/-- `HiringVerdictGenerator.analyze`. -/
def analyze (data : AnswerSet) : HiringVerdict :=
  analyzeFields (pyGet data "experience" "") (pyGet data "references" "")
    (pyGet data "probation" "") (pyGet data "salary" "")

end HiringVerdictGenerator

/-! ## Import analyzer (`modules/import_mod.py`, `ImportVerdictGenerator`) -/

namespace ImportVerdictGenerator

/-- `_analyze_supplier_check`. -/
def analyze_supplier_check (supplier_check : String) : List String :=
  let cl := pyLower supplier_check
  if hasSub cl "не проверял" || hasSub cl "тексермедім" then
    ["🔴 Не проверял поставщика — 90% проблем от этого"]
  else []

/-- `_analyze_payment_terms`. -/
def analyze_payment_terms (payment : String) : List String :=
  let pl := pyLower payment
  if hasSub pl "100%" || hasSub pl "алдын ала" || hasSub pl "предоплата" then
    ["🔴 100% предоплата — максимальный риск"]
  else []

/-- `_analyze_country`. -/
def analyze_country (country : String) : List String :=
  let cl := pyLower country
  if hasSub cl "китай" || hasSub cl "қытай" then
    ["⚠️ Китай — долгая доставка, возможен брак"]
  else []

/-- `_analyze_batch_size`: placeholder in the source (`pass`). -/
def analyze_batch_size (_batch : String) : List String := []

/-- The four checks in source order; every key defaults to `""`. -/
def risk_factors (data : AnswerSet) : List String :=
  analyze_supplier_check (pyGet data "supplier_check" "") ++
  analyze_payment_terms (pyGet data "payment_terms" "") ++
  analyze_country (pyGet data "country" "") ++
  analyze_batch_size (pyGet data "batch_size" "")

/-- `_generate_verdict`, zone component (`>= 3` red, `>= 1` yellow, else green). -/
def verdict_zone (n : Nat) : String :=
  if n ≥ 3 then "red" else if n ≥ 1 then "yellow" else "green"

/-- `_generate_verdict`, text component. -/
def verdict_text (n : Nat) : String :=
  if n ≥ 3 then "🔴 Красная зона\n\nОчень высокие риски."
  else if n ≥ 1 then "🟡 Жёлтая зона\n\nЕсть риски."
  else "🟢 Зелёная зона\n\nРиски минимальные."

/-- `_get_recommendation`. -/
def get_recommendation (zone : String) : String :=
  if zone = "red" then "Критические риски! Проверьте поставщика, не платите 100% вперёд."
  else if zone = "yellow" then "Есть риски, но управляемые. Проверьте поставщика перед оплатой."
  else if zone = "green" then "Риски минимальные. Можно продолжать, но проверяйте документы."
  else ""

/-- `analyze` applied to the four extracted fields. -/
def analyzeFields (supplier_check payment country batch : String) : Verdict :=
  let rf := analyze_supplier_check supplier_check ++ analyze_payment_terms payment ++
    analyze_country country ++ analyze_batch_size batch
  { verdictText := verdict_text rf.length
    zone := verdict_zone rf.length
    signals := rf
    recommendation := get_recommendation (verdict_zone rf.length) }

/-- `ImportVerdictGenerator.analyze`. -/
def analyze (data : AnswerSet) : Verdict :=
  analyzeFields (pyGet data "supplier_check" "") (pyGet data "payment_terms" "")
    (pyGet data "country" "") (pyGet data "batch_size" "")

end ImportVerdictGenerator

/-! ## Idea analyzer (`modules/idea.py`, `IdeaVerdictGenerator`) -/

namespace IdeaVerdictGenerator

/-- `_analyze_idea_description` (`len(str(idea)) < 20`). -/
def analyze_idea_description (idea : String) : List String :=
  if idea.length < 20 then ["❌ Идея описана слишком кратко"] else []

/-- `_analyze_audience` (substring checks plus `len(...) < 10`). -/
def analyze_audience (audience : String) : List String :=
  let al := pyLower audience
  if hasSub al "не знаю" || hasSub al "білмеймін" || decide (audience.length < 10) then
    ["❌ Клиент не определён"]
  else []

/-- `_analyze_competition`. -/
def analyze_competition (competition : String) : List String :=
  let cl := pyLower competition
  if hasSub cl "не знаю" || hasSub cl "білмеймін" then ["❌ Конкурентов не изучал"] else []

/-- `_analyze_revenue_model` (`len(str(revenue)) < 10`). -/
def analyze_revenue_model (revenue : String) : List String :=
  if revenue.length < 10 then ["❌ Модель дохода неясна"] else []

/-- `_analyze_investment`: placeholder in the source (`pass`). -/
def analyze_investment (_investment : String) : List String := []

/-- The five checks in source order; every key defaults to `""`. -/
def weak_points (data : AnswerSet) : List String :=
  analyze_idea_description (pyGet data "idea_description" "") ++
  analyze_audience (pyGet data "target_audience" "") ++
  analyze_competition (pyGet data "competition" "") ++
  analyze_revenue_model (pyGet data "revenue_model" "") ++
  analyze_investment (pyGet data "investment" "")

/-- `_generate_verdict`, zone component (`>= 3` red, `>= 1` yellow, else green). -/
def verdict_zone (n : Nat) : String :=
  if n ≥ 3 then "red" else if n ≥ 1 then "yellow" else "green"

/-- `_generate_verdict`, text component. -/
def verdict_text (n : Nat) : String :=
  if n ≥ 3 then "🔴 Красная зона\n\nИдея сырая. Много неизвестных."
  else if n ≥ 1 then "🟡 Жёлтая зона\n\nИдея имеет право на жизнь."
  else "🟢 Зелёная зона\n\nИдея проработана хорошо."

/-- `_get_recommendation`. -/
def get_recommendation (zone : String) : String :=
  if zone = "red" then "Идея слишком сырая. Проработайте каждый пункт: клиент, конкуренты, доход."
  else if zone = "yellow" then "Идея имеет потенциал, но требует доработки. Изучите слабые места."
  else if zone = "green" then "Идея хорошо проработана. Можно начинать быстрый тест."
  else ""

/-- `analyze` applied to the five extracted fields. -/
def analyzeFields (idea audience competition revenue investment : String) : Verdict :=
  let wp := analyze_idea_description idea ++ analyze_audience audience ++
    analyze_competition competition ++ analyze_revenue_model revenue ++
    analyze_investment investment
  { verdictText := verdict_text wp.length
    zone := verdict_zone wp.length
    signals := wp
    recommendation := get_recommendation (verdict_zone wp.length) }

/-- `IdeaVerdictGenerator.analyze`. -/
def analyze (data : AnswerSet) : Verdict :=
  analyzeFields (pyGet data "idea_description" "") (pyGet data "target_audience" "")
    (pyGet data "competition" "") (pyGet data "revenue_model" "")
    (pyGet data "investment" "")

end IdeaVerdictGenerator

/-! ## AI adapter (`utils/llm.py`, `QwenAnalyzer`)

`_generate` returns the provider's text or `None`: it yields `None` when no
client is configured (missing credentials or missing client library) and in
every caught provider failure (`_generate_dashscope` / `_generate_ollama`
catch all exceptions and return `None`).  The adapter functions below
therefore take the `_generate` outcome as an `Option String` argument;
`none` models every failure path. -/

namespace QwenAnalyzer

/-- `_extract_zone`: ordered keyword tests on the response text. -/
def extract_zone (text : String) : String :=
  if hasSub text "🟢" || hasSub text "Зелёная" || hasSub text "Низкий" then "green"
  else if hasSub text "🟡" || hasSub text "Жёлтая" || hasSub text "Средний" then "yellow"
  else if hasSub text "🔴" || hasSub text "Красная" || hasSub text "Высокий" then "red"
  else "unknown"

/-- Adapter result for the zone-carrying domains: the dict's `verdict`,
`zone` and `ai_generated` fields (the AI branch's dict has no other keys). -/
structure AiResult where
  verdict : String
  zone : String
  aiGenerated : Bool
deriving Repr, DecidableEq

/-- Adapter result for hiring, whose dict carries `risk_level`. -/
structure HiringAiResult where
  verdict : String
  riskLevel : String
  aiGenerated : Bool
deriving Repr, DecidableEq

/-- `_parse_debt_response`. -/
def parse_debt_response (r : String) : AiResult :=
  { verdict := r, zone := extract_zone r, aiGenerated := true }

/-- `_parse_market_response`. -/
def parse_market_response (r : String) : AiResult :=
  { verdict := r, zone := extract_zone r, aiGenerated := true }

/-- `_parse_hiring_response`: note it stores `_extract_zone`'s result
(green/yellow/red/unknown vocabulary) under `risk_level`. -/
def parse_hiring_response (r : String) : HiringAiResult :=
  { verdict := r, riskLevel := extract_zone r, aiGenerated := true }

/-- `_parse_import_response`. -/
def parse_import_response (r : String) : AiResult :=
  { verdict := r, zone := extract_zone r, aiGenerated := true }

/-- `_parse_idea_response`. -/
def parse_idea_response (r : String) : AiResult :=
  { verdict := r, zone := extract_zone r, aiGenerated := true }

/-- `analyze_debt`: parse the response if present, else delegate to the
rule-based `DebtVerdictGenerator` and flag `ai_generated = False`. -/
def analyze_debt (response : Option String) (data : AnswerSet) : AiResult :=
  match response with
  | some r => parse_debt_response r
  | none =>
    let v := DebtVerdictGenerator.analyze data
    { verdict := v.verdictText, zone := v.zone, aiGenerated := false }

/-- `analyze_market`. -/
def analyze_market (response : Option String) (data : AnswerSet) : AiResult :=
  match response with
  | some r => parse_market_response r
  | none =>
    let v := MarketVerdictGenerator.analyze data
    { verdict := v.verdictText, zone := v.zone, aiGenerated := false }

/-- `analyze_hiring`. -/
def analyze_hiring (response : Option String) (data : AnswerSet) : HiringAiResult :=
  match response with
  | some r => parse_hiring_response r
  | none =>
    let v := HiringVerdictGenerator.analyze data
    { verdict := v.verdictText, riskLevel := v.riskLevel, aiGenerated := false }

/-- `analyze_import`. -/
def analyze_import (response : Option String) (data : AnswerSet) : AiResult :=
  match response with
  | some r => parse_import_response r
  | none =>
    let v := ImportVerdictGenerator.analyze data
    { verdict := v.verdictText, zone := v.zone, aiGenerated := false }

/-- `analyze_idea`. -/
def analyze_idea (response : Option String) (data : AnswerSet) : AiResult :=
  match response with
  | some r => parse_idea_response r
  | none =>
    let v := IdeaVerdictGenerator.analyze data
    { verdict := v.verdictText, zone := v.zone, aiGenerated := false }

end QwenAnalyzer

/-! ## Spec-side zone precedence (for claim C7)

A second definition written after the spec's words ("ordered keyword
precedence: green/low-risk markers checked first, then yellow/medium, then
red/high; first match wins; no match yields an explicit unknown zone"), to
be compared with the source-derived `QwenAnalyzer.extract_zone`. -/

/-- The green/low-risk markers of `_extract_zone`. -/
def greenMarkers : List String := ["🟢", "Зелёная", "Низкий"]

/-- The yellow/medium markers of `_extract_zone`. -/
def yellowMarkers : List String := ["🟡", "Жёлтая", "Средний"]

/-- The red/high markers of `_extract_zone`. -/
def redMarkers : List String := ["🔴", "Красная", "Высокий"]

/-- Ordered precedence table: tiers in fixed checking order. -/
def markerTable : List (String × List String) :=
  [("green", greenMarkers), ("yellow", yellowMarkers), ("red", redMarkers)]

/-- Zone by ordered keyword precedence, as the spec words it: the tier of
the first marker list containing a matching marker, else `"unknown"`. -/
def zoneByPrecedence (text : String) : String :=
  match markerTable.find? (fun p => p.2.any (fun m => hasSub text m)) with
  | some p => p.1
  | none => "unknown"

/-! ## Text normalizer (spec §4.1)

Modelled from the spec: `utils/slang.py` (class `SlangNormalizer`) is not
present under `src/`; only its tests and import sites are.  The spec says
`normalize` must, in order, (a) replace known colloquial tokens with
canonical forms ("лям"→"миллион", "теңге"→"тенге"), case-insensitively,
(b) strip a fixed set of discourse filler words ("короче", "ну", "типа")
as standalone tokens "without disturbing surrounding word boundaries", and
(c) leave all other tokens verbatim.  Accordingly the model tokenizes on
spaces, substitutes slang tokens, drops filler tokens and rejoins with
single spaces. -/

namespace SlangNormalizer

/-- Tokenizer worker: `acc` is the current word, reversed.  Structural in
the character list, so it evaluates inside the kernel. -/
def wordsAux : List Char → List Char → List (List Char)
  | [], acc => if acc = [] then [] else [acc.reverse]
  | c :: cs, acc =>
    if c = ' ' then
      if acc = [] then wordsAux cs [] else acc.reverse :: wordsAux cs []
    else wordsAux cs (c :: acc)

/-- Split a character list into its space-separated words (runs of spaces
produce no token). -/
def words (l : List Char) : List (List Char) := wordsAux l []

/-- Join words with single spaces. -/
def unwords : List (List Char) → List Char
  | [] => []
  | [w] => w
  | w :: ws => w ++ ' ' :: unwords ws

/-- Modelled from the spec: slang substitution on one token — the mapping
from surface form to canonical form applied to the lowercased token (spec
examples "лям"→"миллион", "теңге"→"тенге"; an unmapped token is kept). -/
def substTok (t : List Char) : List Char :=
  if t.map lowerChar = "лям".data then "миллион".data
  else if t.map lowerChar = "теңге".data then "тенге".data
  else t

/-- Modelled from the spec: is the token a discourse filler (spec §8
examples "короче", "ну", "типа"), case-insensitively? -/
def isFillerTok (t : List Char) : Bool :=
  t.map lowerChar = "короче".data || t.map lowerChar = "ну".data ||
    t.map lowerChar = "типа".data

/-- Per-token pipeline: substitute slang, then drop fillers. -/
def procTok (t : List Char) : Option (List Char) :=
  if isFillerTok (substTok t) then none else some (substTok t)

/-- Modelled from the spec: `SlangNormalizer.normalize`. -/
def normalize (s : String) : String :=
  String.mk (unwords ((words s.data).filterMap procTok))

end SlangNormalizer

/-! ## Helper lemmas -/

/-- `dict.get` on a front binding for the requested key. -/
theorem pyGet_cons_self (k v dflt : String) (d : AnswerSet) :
    pyGet ((k, v) :: d) k dflt = v := by
  simp [pyGet]

/-- `dict.get` skips a front binding for a different key. -/
theorem pyGet_cons_ne {k key : String} (h : key ≠ k) (v dflt : String) (d : AnswerSet) :
    pyGet ((k, v) :: d) key dflt = pyGet d key dflt := by
  simp [pyGet, List.lookup_cons, beq_false_of_ne h]

/-- `dict.get` of an absent key yields the default. -/
theorem pyGet_absent {d : AnswerSet} {k : String} (h : d.lookup k = none) (dflt : String) :
    pyGet d k dflt = dflt := by
  simp [pyGet, h]

/-- In an answer set whose present values are all empty, every `dict.get`
with default `""` yields `""`. -/
theorem pyGet_all_empty {d : AnswerSet} (h : ∀ p ∈ d, p.2 = "") (key : String) :
    pyGet d key "" = "" := by
  unfold pyGet
  cases hl : d.lookup key with
  | none => rfl
  | some v =>
    have hv : v = "" := by
      rcases List.lookup_eq_some_iff.mp hl with ⟨l₁, l₂, heq, -⟩
      exact h (key, v) (by rw [heq]; exact List.mem_append_right _ (List.mem_cons_self _ _))
    simp [hv]

/-- Hiring analysis of an all-empty answer set, reduced to the field form. -/
theorem hiring_analyze_all_empty {d : AnswerSet} (h : ∀ p ∈ d, p.2 = "") :
    HiringVerdictGenerator.analyze d = HiringVerdictGenerator.analyzeFields "" "" "" "" := by
  unfold HiringVerdictGenerator.analyze
  rw [pyGet_all_empty h, pyGet_all_empty h, pyGet_all_empty h, pyGet_all_empty h]

/-- Import analysis of an all-empty answer set, reduced to the field form. -/
theorem import_analyze_all_empty {d : AnswerSet} (h : ∀ p ∈ d, p.2 = "") :
    ImportVerdictGenerator.analyze d = ImportVerdictGenerator.analyzeFields "" "" "" "" := by
  unfold ImportVerdictGenerator.analyze
  rw [pyGet_all_empty h, pyGet_all_empty h, pyGet_all_empty h, pyGet_all_empty h]

/-- The debt zone map, restated with the spec's thresholds. -/
theorem debt_zone_count (n : Nat) :
    DebtVerdictGenerator.verdict_zone n =
      if n = 0 then "green" else if n ≤ 2 then "yellow" else "red" := by
  unfold DebtVerdictGenerator.verdict_zone
  split_ifs <;> first | rfl | omega

/-- The import zone map, restated with the spec's thresholds. -/
theorem import_zone_count (n : Nat) :
    ImportVerdictGenerator.verdict_zone n =
      if n = 0 then "green" else if n ≤ 2 then "yellow" else "red" := by
  unfold ImportVerdictGenerator.verdict_zone
  split_ifs <;> first | rfl | omega

/-- The idea zone map, restated with the spec's thresholds. -/
theorem idea_zone_count (n : Nat) :
    IdeaVerdictGenerator.verdict_zone n =
      if n = 0 then "green" else if n ≤ 2 then "yellow" else "red" := by
  unfold IdeaVerdictGenerator.verdict_zone
  split_ifs <;> first | rfl | omega

/-- The market zone map, restated with the spec's (tighter) thresholds. -/
theorem market_zone_count (n : Nat) :
    MarketVerdictGenerator.verdict_zone n =
      if n = 0 then "green" else if n = 1 then "yellow" else "red" := by
  unfold MarketVerdictGenerator.verdict_zone
  split_ifs <;> first | rfl | omega

/-- The hiring level map, restated with the spec's thresholds. -/
theorem hiring_level_count (n : Nat) :
    HiringVerdictGenerator.verdict_level n =
      if n = 0 then "low" else if n ≤ 2 then "medium" else "high" := by
  unfold HiringVerdictGenerator.verdict_level
  split_ifs <;> first | rfl | omega

/-- The debt verdict's zone is the zone map applied to its own signal count. -/
theorem debt_zone_proj (d : AnswerSet) :
    (DebtVerdictGenerator.analyze d).zone =
      DebtVerdictGenerator.verdict_zone (DebtVerdictGenerator.analyze d).signals.length := rfl

/-- The market verdict's zone is the zone map applied to its signal count. -/
theorem market_zone_proj (d : AnswerSet) :
    (MarketVerdictGenerator.analyze d).zone =
      MarketVerdictGenerator.verdict_zone (MarketVerdictGenerator.analyze d).signals.length := rfl

/-- The hiring verdict's level is the level map applied to its signal count. -/
theorem hiring_level_proj (d : AnswerSet) :
    (HiringVerdictGenerator.analyze d).riskLevel =
      HiringVerdictGenerator.verdict_level
        (HiringVerdictGenerator.analyze d).signals.length := rfl

/-- The import verdict's zone is the zone map applied to its signal count. -/
theorem import_zone_proj (d : AnswerSet) :
    (ImportVerdictGenerator.analyze d).zone =
      ImportVerdictGenerator.verdict_zone (ImportVerdictGenerator.analyze d).signals.length := rfl

/-- The idea verdict's zone is the zone map applied to its signal count. -/
theorem idea_zone_proj (d : AnswerSet) :
    (IdeaVerdictGenerator.analyze d).zone =
      IdeaVerdictGenerator.verdict_zone (IdeaVerdictGenerator.analyze d).signals.length := rfl

/-- The debt recommendation at any signal count is one of the three fixed
texts and non-empty. -/
theorem debt_rec_cases (n : Nat) :
    (DebtVerdictGenerator.get_recommendation (DebtVerdictGenerator.verdict_zone n) =
        "Рекомендую обратиться к юристу. Шансы низкие, но попробовать стоит." ∨
      DebtVerdictGenerator.get_recommendation (DebtVerdictGenerator.verdict_zone n) =
        "Можно попробовать вернуть самостоятельно. Начните с официальной претензии." ∨
      DebtVerdictGenerator.get_recommendation (DebtVerdictGenerator.verdict_zone n) =
        "Высокие шансы на возврат. Начните с переговоров, затем претензия.") ∧
    DebtVerdictGenerator.get_recommendation (DebtVerdictGenerator.verdict_zone n) ≠ "" := by
  unfold DebtVerdictGenerator.verdict_zone
  split_ifs <;> exact ⟨by decide, by decide⟩

/-- The market recommendation at any signal count is one of the three fixed
texts and non-empty. -/
theorem market_rec_cases (n : Nat) :
    (MarketVerdictGenerator.get_recommendation (MarketVerdictGenerator.verdict_zone n) =
        "Срочно изучите конкурентов и пересмотрите цену. Продаж нет не просто так." ∨
      MarketVerdictGenerator.get_recommendation (MarketVerdictGenerator.verdict_zone n) =
        "Изучите конкурентов и сравните цены. Возможно, вы не в рынке." ∨
      MarketVerdictGenerator.get_recommendation (MarketVerdictGenerator.verdict_zone n) =
        "Позиция нормальная. Продолжайте мониторить рынок и конкурентов.") ∧
    MarketVerdictGenerator.get_recommendation (MarketVerdictGenerator.verdict_zone n) ≠ "" := by
  unfold MarketVerdictGenerator.verdict_zone
  split_ifs <;> exact ⟨by decide, by decide⟩

/-- The hiring recommendation at any signal count is one of the three fixed
texts and non-empty. -/
theorem hiring_rec_cases (n : Nat) :
    (HiringVerdictGenerator.get_recommendation (HiringVerdictGenerator.verdict_level n) =
        "Рекомендую отказаться. Слишком много красных флагов." ∨
      HiringVerdictGenerator.get_recommendation (HiringVerdictGenerator.verdict_level n) =
        "Можно рассмотреть, но с осторожностью. Введите испытательный срок." ∨
      HiringVerdictGenerator.get_recommendation (HiringVerdictGenerator.verdict_level n) =
        "Кандидат выглядит надёжно. Можно предлагать оффер.") ∧
    HiringVerdictGenerator.get_recommendation (HiringVerdictGenerator.verdict_level n) ≠ "" := by
  unfold HiringVerdictGenerator.verdict_level
  split_ifs <;> exact ⟨by decide, by decide⟩

/-- The import recommendation at any signal count is one of the three fixed
texts and non-empty. -/
theorem import_rec_cases (n : Nat) :
    (ImportVerdictGenerator.get_recommendation (ImportVerdictGenerator.verdict_zone n) =
        "Критические риски! Проверьте поставщика, не платите 100% вперёд." ∨
      ImportVerdictGenerator.get_recommendation (ImportVerdictGenerator.verdict_zone n) =
        "Есть риски, но управляемые. Проверьте поставщика перед оплатой." ∨
      ImportVerdictGenerator.get_recommendation (ImportVerdictGenerator.verdict_zone n) =
        "Риски минимальные. Можно продолжать, но проверяйте документы.") ∧
    ImportVerdictGenerator.get_recommendation (ImportVerdictGenerator.verdict_zone n) ≠ "" := by
  unfold ImportVerdictGenerator.verdict_zone
  split_ifs <;> exact ⟨by decide, by decide⟩

/-- The idea recommendation at any signal count is one of the three fixed
texts and non-empty. -/
theorem idea_rec_cases (n : Nat) :
    (IdeaVerdictGenerator.get_recommendation (IdeaVerdictGenerator.verdict_zone n) =
        "Идея слишком сырая. Проработайте каждый пункт: клиент, конкуренты, доход." ∨
      IdeaVerdictGenerator.get_recommendation (IdeaVerdictGenerator.verdict_zone n) =
        "Идея имеет потенциал, но требует доработки. Изучите слабые места." ∨
      IdeaVerdictGenerator.get_recommendation (IdeaVerdictGenerator.verdict_zone n) =
        "Идея хорошо проработана. Можно начинать быстрый тест.") ∧
    IdeaVerdictGenerator.get_recommendation (IdeaVerdictGenerator.verdict_zone n) ≠ "" := by
  unfold IdeaVerdictGenerator.verdict_zone
  split_ifs <;> exact ⟨by decide, by decide⟩

set_option maxHeartbeats 1000000 in
/-- The debt verdict's recommendation is the lookup at its own zone. -/
theorem debt_rec_proj (d : AnswerSet) :
    (DebtVerdictGenerator.analyze d).recommendation =
      DebtVerdictGenerator.get_recommendation
        (DebtVerdictGenerator.verdict_zone
          (DebtVerdictGenerator.analyze d).signals.length) := by
  unfold DebtVerdictGenerator.analyze DebtVerdictGenerator.analyzeFields
  rfl

/-- The market verdict's recommendation is the lookup at its own zone. -/
theorem market_rec_proj (d : AnswerSet) :
    (MarketVerdictGenerator.analyze d).recommendation =
      MarketVerdictGenerator.get_recommendation
        (MarketVerdictGenerator.verdict_zone
          (MarketVerdictGenerator.analyze d).signals.length) := by
  unfold MarketVerdictGenerator.analyze MarketVerdictGenerator.analyzeFields
  rfl

/-- The hiring verdict's recommendation is the lookup at its own level. -/
theorem hiring_rec_proj (d : AnswerSet) :
    (HiringVerdictGenerator.analyze d).recommendation =
      HiringVerdictGenerator.get_recommendation
        (HiringVerdictGenerator.verdict_level
          (HiringVerdictGenerator.analyze d).signals.length) := by
  unfold HiringVerdictGenerator.analyze HiringVerdictGenerator.analyzeFields
  rfl

/-- The import verdict's recommendation is the lookup at its own zone. -/
theorem import_rec_proj (d : AnswerSet) :
    (ImportVerdictGenerator.analyze d).recommendation =
      ImportVerdictGenerator.get_recommendation
        (ImportVerdictGenerator.verdict_zone
          (ImportVerdictGenerator.analyze d).signals.length) := by
  unfold ImportVerdictGenerator.analyze ImportVerdictGenerator.analyzeFields
  rfl

/-- The idea verdict's recommendation is the lookup at its own zone. -/
theorem idea_rec_proj (d : AnswerSet) :
    (IdeaVerdictGenerator.analyze d).recommendation =
      IdeaVerdictGenerator.get_recommendation
        (IdeaVerdictGenerator.verdict_zone
          (IdeaVerdictGenerator.analyze d).signals.length) := by
  unfold IdeaVerdictGenerator.analyze IdeaVerdictGenerator.analyzeFields
  rfl

/-- The debt field analysis depends on the amount only through the amount
check's result. -/
theorem debt_fields_amount_congr {a b : String}
    (h : DebtVerdictGenerator.analyze_amount a = DebtVerdictGenerator.analyze_amount b)
    (dt ty ev ct : String) :
    DebtVerdictGenerator.analyzeFields a dt ty ev ct =
      DebtVerdictGenerator.analyzeFields b dt ty ev ct := by
  unfold DebtVerdictGenerator.analyzeFields
  rw [h]

/-- The market field analysis depends on the sales volume only through the
sales check's result. -/
theorem market_fields_sales_congr {a b : String}
    (h : MarketVerdictGenerator.analyze_sales a = MarketVerdictGenerator.analyze_sales b)
    (c p : String) :
    MarketVerdictGenerator.analyzeFields a c p =
      MarketVerdictGenerator.analyzeFields b c p := by
  unfold MarketVerdictGenerator.analyzeFields
  rw [h]

/-- The market field analysis ignores the price (its check is a no-op). -/
theorem market_fields_price_irrel (s c p q : String) :
    MarketVerdictGenerator.analyzeFields s c p =
      MarketVerdictGenerator.analyzeFields s c q := by
  unfold MarketVerdictGenerator.analyzeFields
  rfl

/-- Debt analysis with an explicit front `amount` binding, in field form. -/
theorem debt_analyze_cons_amount (a : String) (d : AnswerSet) :
    DebtVerdictGenerator.analyze (("amount", a) :: d) =
      DebtVerdictGenerator.analyzeFields a (pyGet d "date" "") (pyGet d "debtor_type" "")
        (pyGet d "evidence" "") (pyGet d "contact_status" "") := by
  unfold DebtVerdictGenerator.analyze
  rw [pyGet_cons_self, pyGet_cons_ne (by decide), pyGet_cons_ne (by decide),
    pyGet_cons_ne (by decide), pyGet_cons_ne (by decide)]

/-- Market analysis with an explicit front `sales_volume` binding, in field
form. -/
theorem market_analyze_cons_sales (s : String) (d : AnswerSet) :
    MarketVerdictGenerator.analyze (("sales_volume", s) :: d) =
      MarketVerdictGenerator.analyzeFields s (pyGet d "competitors" "")
        (pyGet d "price" "0") := by
  unfold MarketVerdictGenerator.analyze
  rw [pyGet_cons_self, pyGet_cons_ne (by decide), pyGet_cons_ne (by decide)]

/-- `_extract_zone` only ever returns one of its four labels. -/
theorem extract_zone_cases (t : String) :
    QwenAnalyzer.extract_zone t = "green" ∨ QwenAnalyzer.extract_zone t = "yellow" ∨
    QwenAnalyzer.extract_zone t = "red" ∨ QwenAnalyzer.extract_zone t = "unknown" := by
  unfold QwenAnalyzer.extract_zone
  split_ifs <;> simp

/-- One-step equation of the tokenizer worker on the empty list. -/
theorem wordsAux_nil (acc : List Char) :
    SlangNormalizer.wordsAux [] acc = if acc = [] then [] else [acc.reverse] := rfl

/-- One-step equation of the tokenizer worker on a cons. -/
theorem wordsAux_cons (c : Char) (l acc : List Char) :
    SlangNormalizer.wordsAux (c :: l) acc =
      if c = ' ' then
        if acc = [] then SlangNormalizer.wordsAux l []
        else acc.reverse :: SlangNormalizer.wordsAux l []
      else SlangNormalizer.wordsAux l (c :: acc) := rfl

/-- Every token the tokenizer worker produces is nonempty and space-free. -/
theorem mem_wordsAux {l : List Char} : ∀ {acc : List Char}, ' ' ∉ acc →
    ∀ w ∈ SlangNormalizer.wordsAux l acc, w ≠ [] ∧ ' ' ∉ w := by
  induction l with
  | nil =>
    intro acc hacc w hw
    rw [wordsAux_nil] at hw
    split at hw
    · simp at hw
    · rename_i ha
      simp only [List.mem_singleton] at hw
      subst hw
      exact ⟨by simpa using ha, by simpa using hacc⟩
  | cons c cs ih =>
    intro acc hacc w hw
    rw [wordsAux_cons] at hw
    by_cases hc : c = ' '
    · rw [if_pos hc] at hw
      by_cases ha : acc = []
      · rw [if_pos ha] at hw
        exact ih (by simp) w hw
      · rw [if_neg ha] at hw
        rcases List.mem_cons.mp hw with h | h
        · subst h
          exact ⟨by simpa using ha, by simpa using hacc⟩
        · exact ih (by simp) w h
    · rw [if_neg hc] at hw
      refine ih ?_ w hw
      intro hmem
      rcases List.mem_cons.mp hmem with h | h
      · exact hc h.symm
      · exact hacc h

/-- The tokenizer on a space-free list yields the single accumulated word
(or nothing when both are empty). -/
theorem wordsAux_no_space {w : List Char} (hw : ' ' ∉ w) :
    ∀ acc : List Char, SlangNormalizer.wordsAux w acc =
      if acc = [] ∧ w = [] then [] else [acc.reverse ++ w] := by
  induction w with
  | nil =>
    intro acc
    rw [wordsAux_nil]
    by_cases ha : acc = [] <;> simp [ha]
  | cons c cs ih =>
    intro acc
    have hc : ¬(c = ' ') := fun h => hw (by simp [h])
    have hw' : ' ' ∉ cs := fun h => hw (List.mem_cons_of_mem _ h)
    rw [wordsAux_cons, if_neg hc, ih hw' (c :: acc)]
    simp

/-- The tokenizer consumes a leading space-free word followed by a space:
the word is emitted and tokenization restarts after the space. -/
theorem wordsAux_word_space {w : List Char} (hw : ' ' ∉ w) :
    ∀ (rest acc : List Char), ¬(acc = [] ∧ w = []) →
      SlangNormalizer.wordsAux (w ++ ' ' :: rest) acc =
        (acc.reverse ++ w) :: SlangNormalizer.wordsAux rest [] := by
  induction w with
  | nil =>
    intro rest acc hne
    have ha : ¬(acc = []) := fun h => hne ⟨h, rfl⟩
    show SlangNormalizer.wordsAux (' ' :: rest) acc = _
    rw [wordsAux_cons, if_pos rfl, if_neg ha]
    simp
  | cons c cs ih =>
    intro rest acc hne
    have hc : ¬(c = ' ') := fun h => hw (by simp [h])
    have hw' : ' ' ∉ cs := fun h => hw (List.mem_cons_of_mem _ h)
    show SlangNormalizer.wordsAux (c :: (cs ++ ' ' :: rest)) acc = _
    rw [wordsAux_cons, if_neg hc, ih hw' rest (c :: acc) (by simp)]
    simp

/-- Tokenizing the space-joined form of nonempty space-free tokens
recovers exactly those tokens. -/
theorem words_unwords : ∀ {ts : List (List Char)}, (∀ w ∈ ts, w ≠ [] ∧ ' ' ∉ w) →
    SlangNormalizer.words (SlangNormalizer.unwords ts) = ts := by
  intro ts
  induction ts with
  | nil => intro _; rfl
  | cons w ws ih =>
    intro h
    rcases h w (List.mem_cons_self _ _) with ⟨hne, hsp⟩
    cases ws with
    | nil =>
      show SlangNormalizer.wordsAux w [] = [w]
      rw [wordsAux_no_space hsp]
      simp [hne]
    | cons w2 ws2 =>
      show SlangNormalizer.wordsAux
        (w ++ ' ' :: SlangNormalizer.unwords (w2 :: ws2)) [] = w :: w2 :: ws2
      rw [wordsAux_word_space hsp _ [] (by simp [hne])]
      simpa using ih (fun y hy => h y (List.mem_cons_of_mem _ hy))

/-- The slang substitution either keeps the token or yields one of the two
canonical forms. -/
theorem substTok_cases (t : List Char) :
    SlangNormalizer.substTok t = t ∨ SlangNormalizer.substTok t = "миллион".data ∨
      SlangNormalizer.substTok t = "тенге".data := by
  unfold SlangNormalizer.substTok
  split_ifs <;> simp

/-- A token the per-token pipeline keeps is nonempty, space-free and a
fixed point of the pipeline (the canonical slang targets are themselves
neither slang sources nor fillers). -/
theorem procTok_fixes {t u : List Char} (hne : t ≠ []) (hsp : ' ' ∉ t)
    (h : SlangNormalizer.procTok t = some u) :
    u ≠ [] ∧ ' ' ∉ u ∧ SlangNormalizer.procTok u = some u := by
  unfold SlangNormalizer.procTok at h
  by_cases hf : SlangNormalizer.isFillerTok (SlangNormalizer.substTok t) = true
  · simp [hf] at h
  · simp [hf] at h
    rcases substTok_cases t with hs | hs | hs
    · rw [hs] at h hf
      subst h
      refine ⟨hne, hsp, ?_⟩
      unfold SlangNormalizer.procTok
      rw [hs]
      simp [hf]
    · rw [hs] at h
      subst h
      exact ⟨by decide, by decide, by decide⟩
    · rw [hs] at h
      subst h
      exact ⟨by decide, by decide, by decide⟩

/-- `filterMap` leaves a list of fixed points unchanged. -/
theorem filterMap_fixed : ∀ {l : List (List Char)},
    (∀ x ∈ l, SlangNormalizer.procTok x = some x) →
    l.filterMap SlangNormalizer.procTok = l := by
  intro l
  induction l with
  | nil => intro _; rfl
  | cons x xs ih =>
    intro h
    rw [List.filterMap_cons_some (h x (List.mem_cons_self _ _)),
      ih (fun y hy => h y (List.mem_cons_of_mem _ hy))]

end BusinessRadar

namespace BusinessRadar

/-- C1: the claim — every analyzer maps an all-empty/absent answer set to its
best tier with no signals — fails on the idea analyzer, which flags the empty
description, audience and revenue model (three length checks), producing the
worst tier red with 3 signals. -/
theorem c1_counterexample :
    ¬((IdeaVerdictGenerator.analyze []).zone = "green" ∧
      (IdeaVerdictGenerator.analyze []).signals = []) := by
  decide

/-- C1 (amended): hiring and import do return the best tier (low / green)
with no signals on any answer set whose fields are all empty or absent.
Debt and market do so only when the fields are present and empty: with the
keys absent, `amount` and `sales_volume` default to `"0"`, which trips the
small-amount / zero-sales check and yields yellow.  Idea returns red with
3 signals on all-empty input (description, audience and revenue-model
length checks all fire). -/
theorem c1_amended :
    (∀ d : AnswerSet, (∀ p ∈ d, p.2 = "") →
      (HiringVerdictGenerator.analyze d).riskLevel = "low" ∧
      (HiringVerdictGenerator.analyze d).signals = []) ∧
    (∀ d : AnswerSet, (∀ p ∈ d, p.2 = "") →
      (ImportVerdictGenerator.analyze d).zone = "green" ∧
      (ImportVerdictGenerator.analyze d).signals = []) ∧
    ((DebtVerdictGenerator.analyze
        [("amount", ""), ("date", ""), ("debtor_type", ""), ("evidence", ""),
         ("contact_status", "")]).zone = "green" ∧
      (DebtVerdictGenerator.analyze
        [("amount", ""), ("date", ""), ("debtor_type", ""), ("evidence", ""),
         ("contact_status", "")]).signals = []) ∧
    (DebtVerdictGenerator.analyze []).zone = "yellow" ∧
    ((MarketVerdictGenerator.analyze
        [("sales_volume", ""), ("competitors", ""), ("price", "")]).zone = "green" ∧
      (MarketVerdictGenerator.analyze
        [("sales_volume", ""), ("competitors", ""), ("price", "")]).signals = []) ∧
    (MarketVerdictGenerator.analyze []).zone = "yellow" ∧
    (IdeaVerdictGenerator.analyze []).zone = "red" ∧
    (IdeaVerdictGenerator.analyze []).signals.length = 3 := by
  refine ⟨fun d h => ?_, fun d h => ?_, by decide, by decide, by decide, by decide, by decide, by decide⟩
  · rw [hiring_analyze_all_empty h]
    exact ⟨rfl, rfl⟩
  · rw [import_analyze_all_empty h]
    exact ⟨rfl, rfl⟩

/-- Witness for C1 (amended): the hypothesised parts applied at concrete
all-empty answer sets. -/
theorem c1_amended_witness :
    (HiringVerdictGenerator.analyze [("experience", ""), ("references", "")]).riskLevel = "low" ∧
    (ImportVerdictGenerator.analyze [("country", "")]).zone = "green" :=
  ⟨(c1_amended.1 [("experience", ""), ("references", "")] (by decide)).1,
   (c1_amended.2.1 [("country", "")] (by decide)).1⟩

/-- C4: the three debt scenarios from the spec — a lone large amount gives
exactly the large-amount signal and yellow; a lone small amount gives
yellow; the combined risky answer set gives red with at least 3 signals. -/
theorem c4_debt_scenarios :
    ((DebtVerdictGenerator.analyze [("amount", "6000000")]).signals =
      ["Крупная сумма — рекомендую юриста."] ∧
     (DebtVerdictGenerator.analyze [("amount", "6000000")]).zone = "yellow") ∧
    (DebtVerdictGenerator.analyze [("amount", "50000")]).zone = "yellow" ∧
    ((DebtVerdictGenerator.analyze
        [("amount", "6000000"), ("date", "3 года"), ("debtor_type", "Неизвестно"),
         ("evidence", "нет"), ("contact_status", "нет")]).zone = "red" ∧
     3 ≤ (DebtVerdictGenerator.analyze
        [("amount", "6000000"), ("date", "3 года"), ("debtor_type", "Неизвестно"),
         ("evidence", "нет"), ("contact_status", "нет")]).signals.length) := by
  refine ⟨⟨by decide, by decide⟩, by decide, by decide, by decide⟩

/-- C6: with the provider call failed (`_generate` returned `None`, which
covers missing client, missing credentials and every caught provider error),
each `analyze_<domain>` returns the rule-based fallback: `ai_generated` is
`False` and the zone (risk level for hiring) is exactly the one the domain
analyzer computes on the same answer set. -/
theorem c6_ai_fallback (d : AnswerSet) :
    ((QwenAnalyzer.analyze_debt none d).aiGenerated = false ∧
     (QwenAnalyzer.analyze_debt none d).zone = (DebtVerdictGenerator.analyze d).zone) ∧
    ((QwenAnalyzer.analyze_market none d).aiGenerated = false ∧
     (QwenAnalyzer.analyze_market none d).zone = (MarketVerdictGenerator.analyze d).zone) ∧
    ((QwenAnalyzer.analyze_hiring none d).aiGenerated = false ∧
     (QwenAnalyzer.analyze_hiring none d).riskLevel =
       (HiringVerdictGenerator.analyze d).riskLevel) ∧
    ((QwenAnalyzer.analyze_import none d).aiGenerated = false ∧
     (QwenAnalyzer.analyze_import none d).zone = (ImportVerdictGenerator.analyze d).zone) ∧
    ((QwenAnalyzer.analyze_idea none d).aiGenerated = false ∧
     (QwenAnalyzer.analyze_idea none d).zone = (IdeaVerdictGenerator.analyze d).zone) :=
  ⟨⟨rfl, rfl⟩, ⟨rfl, rfl⟩, ⟨rfl, rfl⟩, ⟨rfl, rfl⟩, ⟨rfl, rfl⟩⟩

/-- C3: every rule-based verdict's tier is the pure threshold function of
its final signal count — debt/import/idea: 0 green, 1–2 yellow, ≥3 red;
market: 0 green, 1 yellow, ≥2 red; hiring: 0 low, 1–2 medium, ≥3 high. -/
theorem c3_tier_from_signal_count (d : AnswerSet) :
    ((DebtVerdictGenerator.analyze d).zone =
      (if (DebtVerdictGenerator.analyze d).signals.length = 0 then "green"
       else if (DebtVerdictGenerator.analyze d).signals.length ≤ 2 then "yellow"
       else "red")) ∧
    ((ImportVerdictGenerator.analyze d).zone =
      (if (ImportVerdictGenerator.analyze d).signals.length = 0 then "green"
       else if (ImportVerdictGenerator.analyze d).signals.length ≤ 2 then "yellow"
       else "red")) ∧
    ((IdeaVerdictGenerator.analyze d).zone =
      (if (IdeaVerdictGenerator.analyze d).signals.length = 0 then "green"
       else if (IdeaVerdictGenerator.analyze d).signals.length ≤ 2 then "yellow"
       else "red")) ∧
    ((MarketVerdictGenerator.analyze d).zone =
      (if (MarketVerdictGenerator.analyze d).signals.length = 0 then "green"
       else if (MarketVerdictGenerator.analyze d).signals.length = 1 then "yellow"
       else "red")) ∧
    ((HiringVerdictGenerator.analyze d).riskLevel =
      (if (HiringVerdictGenerator.analyze d).signals.length = 0 then "low"
       else if (HiringVerdictGenerator.analyze d).signals.length ≤ 2 then "medium"
       else "high")) := by
  refine ⟨?_, ?_, ?_, ?_, ?_⟩
  · rw [debt_zone_proj]; exact debt_zone_count _
  · rw [import_zone_proj]; exact import_zone_count _
  · rw [idea_zone_proj]; exact idea_zone_count _
  · rw [market_zone_proj]; exact market_zone_count _
  · rw [hiring_level_proj]; exact hiring_level_count _

/-- C5: the claim — every hiring-path verdict carries a risk level from
{low, medium, high} — fails on the AI parse path: `_parse_hiring_response`
stores `_extract_zone`'s result under `risk_level`, so a green-marked AI
text yields the level `"green"`, which is none of low/medium/high. -/
theorem c5_counterexample :
    (QwenAnalyzer.parse_hiring_response "🟢 Риск: низкий").riskLevel = "green" ∧
    ¬((QwenAnalyzer.parse_hiring_response "🟢 Риск: низкий").riskLevel = "low" ∨
      (QwenAnalyzer.parse_hiring_response "🟢 Риск: низкий").riskLevel = "medium" ∨
      (QwenAnalyzer.parse_hiring_response "🟢 Риск: низкий").riskLevel = "high") := by
  decide

/-- C5 (amended): rule-based hiring verdicts carry a risk level from
{low, medium, high}, and debt/market/import/idea rule-based verdicts carry
a zone from {green, yellow, red}; but hiring verdicts parsed from AI text
carry `_extract_zone`'s vocabulary {green, yellow, red, unknown} under
`risk_level` instead. -/
theorem c5_amended :
    (∀ d : AnswerSet, (HiringVerdictGenerator.analyze d).riskLevel = "low" ∨
      (HiringVerdictGenerator.analyze d).riskLevel = "medium" ∨
      (HiringVerdictGenerator.analyze d).riskLevel = "high") ∧
    (∀ r : String, (QwenAnalyzer.parse_hiring_response r).riskLevel = "green" ∨
      (QwenAnalyzer.parse_hiring_response r).riskLevel = "yellow" ∨
      (QwenAnalyzer.parse_hiring_response r).riskLevel = "red" ∨
      (QwenAnalyzer.parse_hiring_response r).riskLevel = "unknown") ∧
    (∀ d : AnswerSet, (DebtVerdictGenerator.analyze d).zone = "green" ∨
      (DebtVerdictGenerator.analyze d).zone = "yellow" ∨
      (DebtVerdictGenerator.analyze d).zone = "red") ∧
    (∀ d : AnswerSet, (MarketVerdictGenerator.analyze d).zone = "green" ∨
      (MarketVerdictGenerator.analyze d).zone = "yellow" ∨
      (MarketVerdictGenerator.analyze d).zone = "red") ∧
    (∀ d : AnswerSet, (ImportVerdictGenerator.analyze d).zone = "green" ∨
      (ImportVerdictGenerator.analyze d).zone = "yellow" ∨
      (ImportVerdictGenerator.analyze d).zone = "red") ∧
    (∀ d : AnswerSet, (IdeaVerdictGenerator.analyze d).zone = "green" ∨
      (IdeaVerdictGenerator.analyze d).zone = "yellow" ∨
      (IdeaVerdictGenerator.analyze d).zone = "red") := by
  refine ⟨fun d => ?_, fun r => extract_zone_cases r, fun d => ?_, fun d => ?_,
    fun d => ?_, fun d => ?_⟩
  · rw [hiring_level_proj]
    unfold HiringVerdictGenerator.verdict_level
    split_ifs <;> simp
  · rw [debt_zone_proj]
    unfold DebtVerdictGenerator.verdict_zone
    split_ifs <;> simp
  · rw [market_zone_proj]
    unfold MarketVerdictGenerator.verdict_zone
    split_ifs <;> simp
  · rw [import_zone_proj]
    unfold ImportVerdictGenerator.verdict_zone
    split_ifs <;> simp
  · rw [idea_zone_proj]
    unfold IdeaVerdictGenerator.verdict_zone
    split_ifs <;> simp

/-- C7: `_extract_zone` equals the spec's ordered-precedence reading
(green markers first, then yellow, then red, first matching tier wins),
and when no marker of any tier occurs it returns `"unknown"` — in
particular it does not default to green. -/
theorem c7_extract_zone_precedence (t : String) :
    QwenAnalyzer.extract_zone t = zoneByPrecedence t ∧
    ((greenMarkers ++ yellowMarkers ++ redMarkers).all (fun m => !(hasSub t m)) = true →
      QwenAnalyzer.extract_zone t = "unknown") := by
  constructor
  · unfold QwenAnalyzer.extract_zone zoneByPrecedence markerTable greenMarkers
      yellowMarkers redMarkers
    cases h1 : hasSub t "🟢" <;> cases h2 : hasSub t "Зелёная" <;>
    cases h3 : hasSub t "Низкий" <;> cases h4 : hasSub t "🟡" <;>
    cases h5 : hasSub t "Жёлтая" <;> cases h6 : hasSub t "Средний" <;>
    cases h7 : hasSub t "🔴" <;> cases h8 : hasSub t "Красная" <;>
    cases h9 : hasSub t "Высокий" <;>
      simp [List.find?, h1, h2, h3, h4, h5, h6, h7, h8, h9]
  · intro h
    have hall := List.all_eq_true.mp h
    have g1 := hall "🟢" (by decide)
    have g2 := hall "Зелёная" (by decide)
    have g3 := hall "Низкий" (by decide)
    have g4 := hall "🟡" (by decide)
    have g5 := hall "Жёлтая" (by decide)
    have g6 := hall "Средний" (by decide)
    have g7 := hall "🔴" (by decide)
    have g8 := hall "Красная" (by decide)
    have g9 := hall "Высокий" (by decide)
    simp only [Bool.not_eq_true'] at g1 g2 g3 g4 g5 g6 g7 g8 g9
    unfold QwenAnalyzer.extract_zone
    simp [g1, g2, g3, g4, g5, g6, g7, g8, g9]

/-- Witness for C7: at a marker-free text the theorem yields both the
precedence agreement and the explicit unknown zone. -/
theorem c7_witness :
    QwenAnalyzer.extract_zone "ответ без маркеров" = zoneByPrecedence "ответ без маркеров" ∧
    QwenAnalyzer.extract_zone "ответ без маркеров" = "unknown" :=
  ⟨(c7_extract_zone_precedence "ответ без маркеров").1,
   (c7_extract_zone_precedence "ответ без маркеров").2 (by decide)⟩

/-- C10: every rule-based verdict's recommendation is one of the domain's
three fixed non-empty tier texts; the `recommendations.get(zone, "")`
default is unreachable since `_generate_verdict` only produces the three
tier labels. -/
theorem c10_recommendation_fixed (d : AnswerSet) :
    (((DebtVerdictGenerator.analyze d).recommendation =
        "Рекомендую обратиться к юристу. Шансы низкие, но попробовать стоит." ∨
      (DebtVerdictGenerator.analyze d).recommendation =
        "Можно попробовать вернуть самостоятельно. Начните с официальной претензии." ∨
      (DebtVerdictGenerator.analyze d).recommendation =
        "Высокие шансы на возврат. Начните с переговоров, затем претензия.") ∧
      (DebtVerdictGenerator.analyze d).recommendation ≠ "") ∧
    (((MarketVerdictGenerator.analyze d).recommendation =
        "Срочно изучите конкурентов и пересмотрите цену. Продаж нет не просто так." ∨
      (MarketVerdictGenerator.analyze d).recommendation =
        "Изучите конкурентов и сравните цены. Возможно, вы не в рынке." ∨
      (MarketVerdictGenerator.analyze d).recommendation =
        "Позиция нормальная. Продолжайте мониторить рынок и конкурентов.") ∧
      (MarketVerdictGenerator.analyze d).recommendation ≠ "") ∧
    (((HiringVerdictGenerator.analyze d).recommendation =
        "Рекомендую отказаться. Слишком много красных флагов." ∨
      (HiringVerdictGenerator.analyze d).recommendation =
        "Можно рассмотреть, но с осторожностью. Введите испытательный срок." ∨
      (HiringVerdictGenerator.analyze d).recommendation =
        "Кандидат выглядит надёжно. Можно предлагать оффер.") ∧
      (HiringVerdictGenerator.analyze d).recommendation ≠ "") ∧
    (((ImportVerdictGenerator.analyze d).recommendation =
        "Критические риски! Проверьте поставщика, не платите 100% вперёд." ∨
      (ImportVerdictGenerator.analyze d).recommendation =
        "Есть риски, но управляемые. Проверьте поставщика перед оплатой." ∨
      (ImportVerdictGenerator.analyze d).recommendation =
        "Риски минимальные. Можно продолжать, но проверяйте документы.") ∧
      (ImportVerdictGenerator.analyze d).recommendation ≠ "") ∧
    (((IdeaVerdictGenerator.analyze d).recommendation =
        "Идея слишком сырая. Проработайте каждый пункт: клиент, конкуренты, доход." ∨
      (IdeaVerdictGenerator.analyze d).recommendation =
        "Идея имеет потенциал, но требует доработки. Изучите слабые места." ∨
      (IdeaVerdictGenerator.analyze d).recommendation =
        "Идея хорошо проработана. Можно начинать быстрый тест.") ∧
      (IdeaVerdictGenerator.analyze d).recommendation ≠ "") := by
  refine ⟨?_, ?_, ?_, ?_, ?_⟩
  · rw [debt_rec_proj]
    exact debt_rec_cases _
  · rw [market_rec_proj]
    exact market_rec_cases _
  · rw [hiring_rec_proj]
    exact hiring_rec_cases _
  · rw [import_rec_proj]
    exact import_rec_cases _
  · rw [idea_rec_proj]
    exact idea_rec_cases _

/-- C2: the claim — a missing key always behaves like an empty-string
value — fails for debt: with every key absent the amount defaults to
`"0"` (yielding the small-amount signal and yellow), while with every key
present and empty the amount fails to parse and the verdict is green, so
the two analyses differ. -/
theorem c2_counterexample :
    (DebtVerdictGenerator.analyze []).zone = "yellow" ∧
    (DebtVerdictGenerator.analyze
      [("amount", ""), ("date", ""), ("debtor_type", ""), ("evidence", ""),
       ("contact_status", "")]).zone = "green" ∧
    DebtVerdictGenerator.analyze [] ≠
      DebtVerdictGenerator.analyze
        [("amount", ""), ("date", ""), ("debtor_type", ""), ("evidence", ""),
         ("contact_status", "")] := by
  refine ⟨by decide, by decide, by decide⟩

/-- C2 (amended): adding an absent key with the empty-string value leaves
every analysis unchanged, for every key except debt's `amount` and
market's `sales_volume`, which default to `"0"` when absent (market's
`price` also defaults to `"0"`, but its check is a no-op, so it is still
equivalent). -/
theorem c2_amended :
    (∀ (d : AnswerSet) (k : String), d.lookup k = none → k ≠ "amount" →
      DebtVerdictGenerator.analyze ((k, "") :: d) = DebtVerdictGenerator.analyze d) ∧
    (∀ (d : AnswerSet) (k : String), d.lookup k = none → k ≠ "sales_volume" →
      MarketVerdictGenerator.analyze ((k, "") :: d) = MarketVerdictGenerator.analyze d) ∧
    (∀ (d : AnswerSet) (k : String), d.lookup k = none →
      HiringVerdictGenerator.analyze ((k, "") :: d) = HiringVerdictGenerator.analyze d) ∧
    (∀ (d : AnswerSet) (k : String), d.lookup k = none →
      ImportVerdictGenerator.analyze ((k, "") :: d) = ImportVerdictGenerator.analyze d) ∧
    (∀ (d : AnswerSet) (k : String), d.lookup k = none →
      IdeaVerdictGenerator.analyze ((k, "") :: d) = IdeaVerdictGenerator.analyze d) := by
  have hget : ∀ (d : AnswerSet) (k : String), d.lookup k = none →
      ∀ key, pyGet ((k, "") :: d) key "" = pyGet d key "" := by
    intro d k hk key
    by_cases h : key = k
    · subst h
      rw [pyGet_cons_self, pyGet_absent hk]
    · exact pyGet_cons_ne h _ _ _
  refine ⟨fun d k hk hne => ?_, fun d k hk hne => ?_, fun d k hk => ?_,
    fun d k hk => ?_, fun d k hk => ?_⟩
  · unfold DebtVerdictGenerator.analyze
    rw [pyGet_cons_ne (Ne.symm hne), hget d k hk, hget d k hk, hget d k hk, hget d k hk]
  · by_cases hp : k = "price"
    · subst hp
      unfold MarketVerdictGenerator.analyze
      rw [pyGet_cons_ne (by decide), pyGet_cons_ne (by decide), pyGet_cons_self,
        pyGet_absent hk]
      exact market_fields_price_irrel _ _ _ _
    · unfold MarketVerdictGenerator.analyze
      rw [pyGet_cons_ne (Ne.symm hne), hget d k hk, pyGet_cons_ne (Ne.symm hp)]
  · unfold HiringVerdictGenerator.analyze
    rw [hget d k hk, hget d k hk, hget d k hk, hget d k hk]
  · unfold ImportVerdictGenerator.analyze
    rw [hget d k hk, hget d k hk, hget d k hk, hget d k hk]
  · unfold IdeaVerdictGenerator.analyze
    rw [hget d k hk, hget d k hk, hget d k hk, hget d k hk, hget d k hk]

/-- Witness for C2 (amended): concrete absent keys added as empty strings
leave each analysis unchanged. -/
theorem c2_amended_witness :
    DebtVerdictGenerator.analyze [("date", ""), ("amount", "500000")] =
      DebtVerdictGenerator.analyze [("amount", "500000")] ∧
    MarketVerdictGenerator.analyze [("competitors", ""), ("sales_volume", "5")] =
      MarketVerdictGenerator.analyze [("sales_volume", "5")] ∧
    HiringVerdictGenerator.analyze [("references", ""), ("experience", "5 лет")] =
      HiringVerdictGenerator.analyze [("experience", "5 лет")] ∧
    ImportVerdictGenerator.analyze [("country", ""), ("supplier_check", "проверял")] =
      ImportVerdictGenerator.analyze [("supplier_check", "проверял")] ∧
    IdeaVerdictGenerator.analyze [("competition", ""), ("idea_description", "идея")] =
      IdeaVerdictGenerator.analyze [("idea_description", "идея")] :=
  ⟨c2_amended.1 [("amount", "500000")] "date" (by decide) (by decide),
   c2_amended.2.1 [("sales_volume", "5")] "competitors" (by decide) (by decide),
   c2_amended.2.2.1 [("experience", "5 лет")] "references" (by decide),
   c2_amended.2.2.2.1 [("supplier_check", "проверял")] "country" (by decide),
   c2_amended.2.2.2.2 [("idea_description", "идея")] "competition" (by decide)⟩

/-- C8: no check raises on malformed input — in the embedding every check
is a total function — and a failed numeric parse contributes no signal:
an unparsable `amount` behaves exactly like the empty amount in the debt
analysis, and an unparsable `sales_volume` like the empty one in the
market analysis. -/
theorem c8_malformed_no_signal :
    (∀ a : String, pyFloat (stripSep a) = none →
      DebtVerdictGenerator.analyze_amount a = []) ∧
    (∀ s : String, pyInt (stripSep s) = none →
      MarketVerdictGenerator.analyze_sales s = []) ∧
    (∀ (d : AnswerSet) (a : String), pyFloat (stripSep a) = none →
      DebtVerdictGenerator.analyze (("amount", a) :: d) =
        DebtVerdictGenerator.analyze (("amount", "") :: d)) ∧
    (∀ (d : AnswerSet) (s : String), pyInt (stripSep s) = none →
      MarketVerdictGenerator.analyze (("sales_volume", s) :: d) =
        MarketVerdictGenerator.analyze (("sales_volume", "") :: d)) := by
  have hda : ∀ a : String, pyFloat (stripSep a) = none →
      DebtVerdictGenerator.analyze_amount a = [] := by
    intro a h
    unfold DebtVerdictGenerator.analyze_amount
    rw [h]
  have hms : ∀ s : String, pyInt (stripSep s) = none →
      MarketVerdictGenerator.analyze_sales s = [] := by
    intro s h
    unfold MarketVerdictGenerator.analyze_sales
    rw [h]
  refine ⟨hda, hms, fun d a h => ?_, fun d s h => ?_⟩
  · rw [debt_analyze_cons_amount, debt_analyze_cons_amount]
    exact debt_fields_amount_congr ((hda a h).trans (hda "" (by decide)).symm) _ _ _ _
  · rw [market_analyze_cons_sales, market_analyze_cons_sales]
    exact market_fields_sales_congr ((hms s h).trans (hms "" (by decide)).symm) _ _

/-- Witness for C8: concrete malformed numeric fields parse to nothing,
contribute no signal, and leave the analyses equal to the empty-field ones. -/
theorem c8_witness :
    pyFloat (stripSep "не знаю") = none ∧
    DebtVerdictGenerator.analyze_amount "не знаю" = [] ∧
    pyInt (stripSep "много") = none ∧
    MarketVerdictGenerator.analyze_sales "много" = [] ∧
    DebtVerdictGenerator.analyze [("amount", "не знаю")] =
      DebtVerdictGenerator.analyze [("amount", "")] ∧
    MarketVerdictGenerator.analyze [("sales_volume", "много")] =
      MarketVerdictGenerator.analyze [("sales_volume", "")] :=
  ⟨by decide, c8_malformed_no_signal.1 "не знаю" (by decide), by decide,
   c8_malformed_no_signal.2.1 "много" (by decide),
   c8_malformed_no_signal.2.2.1 [] "не знаю" (by decide),
   c8_malformed_no_signal.2.2.2 [] "много" (by decide)⟩

/-- C9: the text normalizer is idempotent — normalizing an already
normalized string changes nothing.  Every token of a normalized string is
a pipeline fixed point (canonical slang targets are not slang sources or
fillers, unmapped tokens are kept verbatim), and tokenizing the
space-joined output recovers the same tokens. -/
theorem c9_normalize_idempotent (x : String) :
    SlangNormalizer.normalize (SlangNormalizer.normalize x) =
      SlangNormalizer.normalize x := by
  unfold SlangNormalizer.normalize
  have h0 : ∀ w ∈ SlangNormalizer.words x.data, w ≠ [] ∧ ' ' ∉ w :=
    mem_wordsAux (by simp)
  have h1 : ∀ w ∈ (SlangNormalizer.words x.data).filterMap SlangNormalizer.procTok,
      w ≠ [] ∧ ' ' ∉ w ∧ SlangNormalizer.procTok w = some w := by
    intro w hw
    rcases List.mem_filterMap.mp hw with ⟨t, ht, hpt⟩
    rcases h0 t ht with ⟨hne, hsp⟩
    exact procTok_fixes hne hsp hpt
  show String.mk (SlangNormalizer.unwords (SlangNormalizer.words
      (SlangNormalizer.unwords ((SlangNormalizer.words x.data).filterMap
        SlangNormalizer.procTok)) |>.filterMap SlangNormalizer.procTok)) = _
  rw [words_unwords (fun w hw => ⟨(h1 w hw).1, (h1 w hw).2.1⟩),
    filterMap_fixed (fun w hw => (h1 w hw).2.2)]

end BusinessRadar
